import Mathlib

/-!
Verification development for the SICOP document-management frontend
(static/js modules) and, where the claims reach into the backend that is
not part of the shipped sources, for models written from the spec.

Every definition below is a shallow embedding of a concrete JavaScript
function of the repository unless its doc comment starts with
"Modelled from the spec:".
-/

/-- A JavaScript value as far as the embedded fragments need it: a string,
a function object (identified by its name) or a plain object (identified
by a label).  Functions and objects are always truthy; a string is truthy
iff it is non-empty. -/
inductive JsVal where
  | str (s : String)
  | fn (name : String)
  | obj (label : String)
deriving DecidableEq, Repr

/-- JavaScript truthiness for the values of JsVal: the empty string is the
only falsy one. -/
def jsTruthyVal : JsVal → Bool
  | .str s => !s.isEmpty
  | .fn _ => true
  | .obj _ => true

/-- The own properties of the object literal statusMap in
TableRenderer.getStatusText (src/unnamed/part_002, lines 92-103) and the
identical DocumentDetails.getStatusText (src/unnamed/part_001,
lines 346-357). -/
def statusMapOwn (s : String) : Option String :=
  if s = "pendiente" then some "Pendiente"
  else if s = "procesando" then some "Procesando"
  else if s = "procesado" then some "Procesado"
  else if s = "error" then some "Error"
  else if s = "pending" then some "Pendiente"
  else if s = "processing" then some "Procesando"
  else if s = "completed" then some "Completado"
  else none

/-- The property names every plain JavaScript object literal inherits from
Object.prototype; a bracket lookup on statusMap falls through to these
when the key is not an own property. -/
def objectProtoMethods : List String :=
  ["constructor", "hasOwnProperty", "isPrototypeOf", "propertyIsEnumerable",
   "toLocaleString", "toString", "valueOf",
   "__defineGetter__", "__defineSetter__", "__lookupGetter__", "__lookupSetter__"]

/-- Lookup on the prototype chain of a plain object literal: __proto__ is
an accessor yielding Object.prototype itself, the other inherited names
yield the corresponding built-in function. -/
def protoLookup (key : String) : Option JsVal :=
  if key = "__proto__" then some (.obj "Object.prototype")
  else if key ∈ objectProtoMethods then some (.fn key)
  else none

/-- Embedding of getStatusText (both copies are textually identical):
the JavaScript expression is statusMap[status] || status, where the
bracket lookup first consults the own properties of the literal and then
the prototype chain, and the || falls back to the input when the looked-up
value is absent (undefined) or falsy. -/
def getStatusText (status : String) : JsVal :=
  match (statusMapOwn status).map JsVal.str <|> protoLookup status with
  | some v => if jsTruthyVal v then v else .str status
  | none => .str status

/-- The unit array of formatFileSize. -/
def sizeUnits : List String := ["B", "KB", "MB", "GB"]

/-- Decimal rendering of a quantity of hundredths, the way JavaScript
prints parseFloat(x.toFixed(2)): trailing zero decimals are dropped. -/
def fmtHundredths (h : Nat) : String :=
  let ip := h / 100
  let fr := h % 100
  if fr = 0 then toString ip
  else if fr % 10 = 0 then toString ip ++ "." ++ toString (fr / 10)
  else if fr < 10 then toString ip ++ ".0" ++ toString fr
  else toString ip ++ "." ++ toString fr

/-- The numeric part of formatFileSize for a positive byte count n:
n / 1024^i rounded to two decimals, where i = floor(log base 1024 of n).
Math.floor(Math.log(bytes) / Math.log(k)) is modelled exactly as Nat.log,
and toFixed(2) followed by parseFloat as exact half-up rounding to
hundredths followed by fmtHundredths. -/
def sizeNumPart (n : Nat) : String :=
  let i := Nat.log 1024 n
  let p := 1024 ^ i
  fmtHundredths ((n * 200 + p) / (2 * p))

/-- Embedding of formatFileSize (identical in TableRenderer, lines 116-122
of src/unnamed/part_002, and FileHandler, lines 186-192): a falsy input
(undefined, null or 0, modelled as none or some 0) yields "0 B";
otherwise the byte count is scaled by the unit at index
floor(log base 1024) of the array sizes, an out-of-range index giving the
JavaScript string coercion "undefined". -/
def formatFileSize (bytes : Option Nat) : String :=
  match bytes with
  | none => "0 B"
  | some n =>
    if n = 0 then "0 B"
    else sizeNumPart n ++ " " ++ (sizeUnits.getD (Nat.log 1024 n) "undefined")

/-- Claim C3, counterexample: getStatusText does not return every non-key
input unchanged.  The input "toString" is none of the seven mapped status
strings, yet the lookup statusMap["toString"] finds the function inherited
from Object.prototype, which is truthy, so the || returns that function
instead of the input string. -/
theorem getStatusText_toString_counterexample :
    getStatusText "toString" = JsVal.fn "toString" ∧
      getStatusText "toString" ≠ JsVal.str "toString" := by
  decide

/-- Claim C3 (amended): getStatusText maps the four Spanish status values
and the three legacy English aliases to their capitalized Spanish display
labels, and returns every other input string unchanged provided that
string is not a property name inherited from Object.prototype; for an
inherited property name the lookup yields the inherited (truthy) value,
not the input. -/
theorem getStatusText_spec :
    (getStatusText "pendiente" = JsVal.str "Pendiente" ∧
     getStatusText "procesando" = JsVal.str "Procesando" ∧
     getStatusText "procesado" = JsVal.str "Procesado" ∧
     getStatusText "error" = JsVal.str "Error" ∧
     getStatusText "pending" = JsVal.str "Pendiente" ∧
     getStatusText "processing" = JsVal.str "Procesando" ∧
     getStatusText "completed" = JsVal.str "Completado") ∧
    (∀ s, statusMapOwn s = none → protoLookup s = none →
      getStatusText s = JsVal.str s) ∧
    (∀ s v, statusMapOwn s = none → protoLookup s = some v →
      getStatusText s = v) := by
  refine ⟨by decide, ?_, ?_⟩
  · intro s h1 h2
    simp [getStatusText, h1, h2, Option.orElse]
  · intro s v h1 h2
    have htr : jsTruthyVal v = true := by
      unfold protoLookup at h2
      split at h2
      · cases h2; rfl
      · split at h2
        · cases h2; rfl
        · cases h2
    simp [getStatusText, h1, h2, Option.orElse, htr]

/-- Witness for getStatusText_spec at concrete inputs: a mapped status, an
ordinary unmapped string, and an inherited Object.prototype name. -/
theorem getStatusText_spec_witness :
    getStatusText "procesado" = JsVal.str "Procesado" ∧
      getStatusText "otro" = JsVal.str "otro" ∧
      getStatusText "hasOwnProperty" = JsVal.fn "hasOwnProperty" :=
  ⟨getStatusText_spec.1.2.2.1,
   getStatusText_spec.2.1 "otro" (by decide) (by decide),
   getStatusText_spec.2.2 "hasOwnProperty" (JsVal.fn "hasOwnProperty")
     (by decide) (by decide)⟩

/-- Claim C10: formatFileSize returns "0 B" on every falsy input (missing
size or 0); on a positive size below 1024^4 it returns its rounded number
followed by one of the units B, KB, MB, GB; on a size of at least 1024^4
the unit index runs past the end of the unit array and the returned
string ends in "undefined". -/
theorem formatFileSize_spec :
    (formatFileSize none = "0 B" ∧ formatFileSize (some 0) = "0 B") ∧
    (∀ n, 1 ≤ n → n < 1024 ^ 4 →
      ∃ u, u ∈ sizeUnits ∧ formatFileSize (some n) = sizeNumPart n ++ " " ++ u) ∧
    (∀ n, 1024 ^ 4 ≤ n → ∃ p, formatFileSize (some n) = p ++ "undefined") := by
  refine ⟨⟨rfl, rfl⟩, ?_, ?_⟩
  · intro n h1 h2
    have hn : n ≠ 0 := by omega
    have hlog : Nat.log 1024 n < 4 := (Nat.lt_pow_iff_log_lt (by norm_num) hn).mp h2
    refine ⟨sizeUnits.getD (Nat.log 1024 n) "undefined", ?_, ?_⟩
    · interval_cases h : (Nat.log 1024 n) <;> simp [sizeUnits]
    · simp [formatFileSize, hn]
  · intro n h
    have hn : n ≠ 0 := by
      have h0 : (0 : Nat) < 1024 ^ 4 := by norm_num
      omega
    have hlog : 4 ≤ Nat.log 1024 n := (Nat.pow_le_iff_le_log (by norm_num) hn).mp h
    refine ⟨sizeNumPart n ++ " ", ?_⟩
    simp only [formatFileSize]
    rw [if_neg hn, List.getD_eq_default _ _ (by simp [sizeUnits]; omega)]

/-- Witness for formatFileSize_spec at the concrete sizes 0, 1500 and
1024^4. -/
theorem formatFileSize_spec_witness :
    formatFileSize (some 0) = "0 B" ∧
      (∃ u, u ∈ sizeUnits ∧ formatFileSize (some 1500) = sizeNumPart 1500 ++ " " ++ u) ∧
      (∃ p, formatFileSize (some (1024 ^ 4)) = p ++ "undefined") :=
  ⟨formatFileSize_spec.1.2,
   formatFileSize_spec.2.1 1500 (by norm_num) (by norm_num),
   formatFileSize_spec.2.2 (1024 ^ 4) (le_refl _)⟩

/-- A document record as the frontend consumes it from GET /api/documents;
fields that a given record may lack (undefined in JavaScript) are
Options. -/
structure Doc where
  id : Nat
  nombre_pdf : Option String
  filename : Option String
  estado_procesamiento : Option String
  tamano_archivo : Option Nat
  fecha_hora_recepcion : Option String
  dominio_origen : Option String
  url_google_drive : Option String
deriving DecidableEq, Repr

/-- JavaScript String.prototype.includes: q occurs as a contiguous
substring of s. -/
def jsIncludes (s q : String) : Bool := decide (q.toList <:+: s.toList)

/-- JavaScript String.prototype.trim: whitespace stripped from both ends,
written over the character list so that concrete inputs evaluate. -/
def jsTrim (s : String) : String :=
  ⟨((s.data.dropWhile Char.isWhitespace).reverse.dropWhile Char.isWhitespace).reverse⟩

/-- The search predicate of TableRenderer.renderTable (src/unnamed/
part_002, lines 23-30): the lowercased query must occur in the lowercased
nombre_pdf, filename or dominio_origen, a missing field standing in as
the empty string. -/
def matchesSearch (searchQuery : String) (d : Doc) : Bool :=
  let query := searchQuery.toLower
  jsIncludes (d.nombre_pdf.getD "").toLower query ||
  jsIncludes (d.filename.getD "").toLower query ||
  jsIncludes (d.dominio_origen.getD "").toLower query

/-- The observable outcome of TableRenderer.renderTable on the table body:
either the empty-state row or one row per remaining document. -/
inductive RenderedBody where
  | emptyState
  | rows (docs : List Doc)
deriving DecidableEq, Repr

/-- Embedding of TableRenderer.renderTable (src/unnamed/part_002,
lines 8-73): the list is first narrowed by the status filter unless it is
"todos", then by the search query unless its trim is empty; an empty
remainder renders the empty state, otherwise one row is appended per
document in order.  The DOM text of each row is not part of the model,
the row-to-document correspondence is. -/
def renderTable (documents : List Doc) (currentFilter : String) (searchQuery : String) :
    RenderedBody :=
  let filtered1 :=
    if currentFilter ≠ "todos" then
      documents.filter (fun d => d.estado_procesamiento == some currentFilter)
    else documents
  let filtered2 :=
    if jsTrim searchQuery ≠ "" then filtered1.filter (matchesSearch searchQuery)
    else filtered1
  if filtered2.isEmpty then .emptyState else .rows filtered2

/-- The documents that got a row. -/
def rowsOf : RenderedBody → List Doc
  | .emptyState => []
  | .rows l => l

/-- Claim-side row predicate, written after the words of claim C9: the
filter is "todos" or the status is string-equal to it, and the trimmed
query is empty or the lowercased query occurs in one of the three
lowercased name fields, missing fields treated as empty strings. -/
def matchesClaimC9 (currentFilter searchQuery : String) (d : Doc) : Bool :=
  (currentFilter == "todos" || d.estado_procesamiento == some currentFilter) &&
  (jsTrim searchQuery == "" ||
    jsIncludes (d.nombre_pdf.getD "").toLower searchQuery.toLower ||
    jsIncludes (d.filename.getD "").toLower searchQuery.toLower ||
    jsIncludes (d.dominio_origen.getD "").toLower searchQuery.toLower)

/-- The two sequential filters of renderTable coincide with one filter by
the conjunction matchesClaimC9. -/
theorem renderTable_filter_eq (documents : List Doc) (f q : String) :
    (if jsTrim q ≠ "" then
       (if f ≠ "todos" then documents.filter (fun d => d.estado_procesamiento == some f)
        else documents).filter (matchesSearch q)
     else (if f ≠ "todos" then documents.filter (fun d => d.estado_procesamiento == some f)
        else documents)) = documents.filter (matchesClaimC9 f q) := by
  by_cases hf : f = "todos"
  · by_cases hq : jsTrim q = ""
    · have hall : ∀ a ∈ documents, matchesClaimC9 "todos" q a = true := by
        intro a _
        simp [matchesClaimC9, hq]
      simp [hf, hq]
      exact (List.filter_eq_self.mpr hall).symm
    · simp [hf, hq]
      apply List.filter_congr
      intro a _
      simp [matchesClaimC9, matchesSearch, beq_eq_false_iff_ne.mpr hq]
  · by_cases hq : jsTrim q = ""
    · simp [hf, hq]
      apply List.filter_congr
      intro a _
      simp [matchesClaimC9, beq_eq_false_iff_ne.mpr hf, hq]
    · simp [hf, hq, List.filter_filter]
      apply List.filter_congr
      intro a _
      simp [matchesClaimC9, matchesSearch, beq_eq_false_iff_ne.mpr hf,
            beq_eq_false_iff_ne.mpr hq, Bool.and_comm]

/-- renderTable in closed form over the claim-side predicate. -/
theorem renderTable_eq (documents : List Doc) (f q : String) :
    renderTable documents f q =
      (if documents.filter (matchesClaimC9 f q) = [] then RenderedBody.emptyState
       else RenderedBody.rows (documents.filter (matchesClaimC9 f q))) := by
  have h := renderTable_filter_eq documents f q
  simp only [renderTable]
  rw [h]
  cases h2 : documents.filter (matchesClaimC9 f q) <;> simp

/-- Claim C9: a document gets a row exactly when it passes the status
filter (filter "todos", or string equality of estado_procesamiento with
the filter) and the search (trimmed query empty, or lowercased query a
substring of a lowercased name field, missing fields as empty strings);
rows keep the list order and an empty remainder renders the empty state.
In particular a document whose status is the legacy alias "pending" never
matches the Spanish filter "procesado". -/
theorem renderTable_claim_spec :
    (∀ documents f q,
      renderTable documents f q =
        (if documents.filter (matchesClaimC9 f q) = [] then RenderedBody.emptyState
         else RenderedBody.rows (documents.filter (matchesClaimC9 f q)))) ∧
    (∀ documents q d, d.estado_procesamiento = some "pending" →
      d ∉ rowsOf (renderTable documents "procesado" q)) := by
  refine ⟨renderTable_eq, ?_⟩
  intro documents q d hd
  rw [renderTable_eq]
  split
  · simp [rowsOf]
  · simp only [rowsOf]
    intro hmem
    have hcl := List.of_mem_filter hmem
    simp [matchesClaimC9, hd] at hcl

/-- Witness for renderTable_claim_spec: a concrete pending-status document
is never rendered under the "procesado" filter, and the closed form,
evaluated on a one-element list. -/
theorem renderTable_claim_spec_witness :
    (⟨1, some "a.pdf", none, some "pending", none, none, none, none⟩ : Doc) ∉
      rowsOf (renderTable [⟨1, some "a.pdf", none, some "pending", none, none, none, none⟩]
        "procesado" "") :=
  renderTable_claim_spec.2 [⟨1, some "a.pdf", none, some "pending", none, none, none, none⟩]
    "" ⟨1, some "a.pdf", none, some "pending", none, none, none, none⟩ rfl

/-- A file as the browser hands it to the change listener: name, content
type and size. -/
structure JsFile where
  name : String
  type : String
  size : Nat
deriving DecidableEq, Repr

/-- The POST an upload issues: target URL, multipart field name, and the
file attached under that field. -/
structure UploadRequest where
  url : String
  field : String
  file : JsFile
deriving DecidableEq, Repr

/-- The observable outcome of FileHandler.handleFileSelect together with
the start of FileHandler.uploadFile: the error toast if any, whether the
file input was reset, the file stored on the handler, the info toast, and
the HTTP request issued if any. -/
structure FileSelectOutcome where
  errorMsg : Option String
  inputCleared : Bool
  selectedFile : Option JsFile
  infoMsg : Option String
  request : Option UploadRequest
deriving DecidableEq, Repr

/-- Embedding of FileHandler.handleFileSelect (src/static/js/modules/
FileHandler.js, lines 24-38) followed into uploadFile up to the point the
POST /api/upload-pdf request leaves (lines 40-53): no file selected is a
no-op; a non-PDF content type reports an error, clears the input and
issues nothing; a PDF is stored as selectedFile and, unless an upload is
already running (the isUploading guard), posted under the multipart field
pdf_file.  The handling of the server response is outside this claim and
not modelled. -/
def handleFileSelect (isUploading : Bool) (files : List JsFile) : FileSelectOutcome :=
  match files with
  | [] => ⟨none, false, none, none, none⟩
  | file :: _ =>
    if file.type ≠ "application/pdf" then
      ⟨some "Solo se permiten archivos PDF", true, none, none, none⟩
    else
      if isUploading then ⟨none, false, some file, none, none⟩
      else ⟨none, false, some file, some "Subiendo archivo...",
            some ⟨"/api/upload-pdf", "pdf_file", file⟩⟩

/-- Claim C5: a selected file whose content type is not application/pdf is
rejected — an error is reported, the input is cleared and no request is
issued — and every request that does leave goes to /api/upload-pdf under
field pdf_file carrying a file of content type application/pdf. -/
theorem handleFileSelect_spec :
    (∀ u file rest, file.type ≠ "application/pdf" →
      handleFileSelect u (file :: rest) =
        ⟨some "Solo se permiten archivos PDF", true, none, none, none⟩) ∧
    (∀ u files r, (handleFileSelect u files).request = some r →
      r.url = "/api/upload-pdf" ∧ r.field = "pdf_file" ∧
        r.file.type = "application/pdf") := by
  constructor
  · intro u file rest h2
    simp [handleFileSelect, h2]
  · intro u files r h
    cases files with
    | nil => cases h
    | cons file rest =>
      by_cases ht : file.type ≠ "application/pdf"
      · rw [show handleFileSelect u (file :: rest) =
          ⟨some "Solo se permiten archivos PDF", true, none, none, none⟩ from by
            simp [handleFileSelect, ht]] at h
        cases h
      · push_neg at ht
        cases u with
        | true =>
          rw [show handleFileSelect true (file :: rest) =
            ⟨none, false, some file, none, none⟩ from by simp [handleFileSelect, ht]] at h
          cases h
        | false =>
          rw [show handleFileSelect false (file :: rest) =
            ⟨none, false, some file, some "Subiendo archivo...",
              some ⟨"/api/upload-pdf", "pdf_file", file⟩⟩ from by
                simp [handleFileSelect, ht]] at h
          cases h
          exact ⟨rfl, rfl, ht⟩

/-- Witness for handleFileSelect_spec on a concrete PNG file and a
concrete PDF upload. -/
theorem handleFileSelect_spec_witness :
    handleFileSelect false [⟨"x.png", "image/png", 10⟩] =
        ⟨some "Solo se permiten archivos PDF", true, none, none, none⟩ ∧
      ("/api/upload-pdf" = "/api/upload-pdf" ∧ "pdf_file" = "pdf_file" ∧
        (⟨"d.pdf", "application/pdf", 10⟩ : JsFile).type = "application/pdf") :=
  ⟨handleFileSelect_spec.1 false ⟨"x.png", "image/png", 10⟩ [] (by decide),
   handleFileSelect_spec.2 false [⟨"d.pdf", "application/pdf", 10⟩]
     ⟨"/api/upload-pdf", "pdf_file", ⟨"d.pdf", "application/pdf", 10⟩⟩ rfl⟩

/-- The nested data object of the GET /api/documents response. -/
structure DataObj where
  documentos : Option (List Doc)
deriving DecidableEq, Repr

/-- The parsed JSON of the GET /api/documents response. -/
structure DocsJson where
  data : Option DataObj
deriving DecidableEq, Repr

/-- An HTTP response as loadDocuments consumes it: the ok flag and the
parsed body, none standing for a body response.json() fails on. -/
structure HttpDocsResponse where
  ok : Bool
  body : Option DocsJson
deriving DecidableEq, Repr

/-- The two ways the fetch of /api/documents can come back. -/
inductive FetchDocs where
  | networkFailure
  | response (r : HttpDocsResponse)
deriving DecidableEq, Repr

/-- Embedding of PdfHandler.loadDocuments (src/static/js/modules/
PdfHandler.js, lines 51-70), returning the new document list and the
error toast if any: a non-ok status throws and is caught, as are a
network failure and an unparsable body, each leaving the list as it was
and reporting an error (the thrown message appended in the source is
not modelled, only that an error is shown); an ok parsed response
installs data.data?.documentos || [] as the list. -/
def loadDocuments (current : List Doc) (f : FetchDocs) : List Doc × Option String :=
  match f with
  | .networkFailure => (current, some "Error al cargar documentos")
  | .response r =>
    if !r.ok then (current, some "Error al cargar documentos")
    else
      match r.body with
      | none => (current, some "Error al cargar documentos")
      | some j => ((j.data.bind DataObj.documentos).getD [], none)

/-- Claim C8: an HTTP-ok JSON response installs the documentos field when
present and the empty list otherwise; a non-ok response reports an error
and leaves the previously loaded list unchanged. -/
theorem loadDocuments_spec :
    (∀ current r j l, r.ok = true → r.body = some j →
      j.data.bind DataObj.documentos = some l →
      loadDocuments current (.response r) = (l, none)) ∧
    (∀ current r j, r.ok = true → r.body = some j →
      j.data.bind DataObj.documentos = none →
      loadDocuments current (.response r) = ([], none)) ∧
    (∀ current r, r.ok = false →
      loadDocuments current (.response r) =
        (current, some "Error al cargar documentos")) := by
  refine ⟨?_, ?_, ?_⟩
  · intro current r j l hok hbody hdoc
    simp [loadDocuments, hok, hbody, hdoc]
  · intro current r j hok hbody hdoc
    simp [loadDocuments, hok, hbody, hdoc]
  · intro current r hok
    simp [loadDocuments, hok]

/-- Witness for loadDocuments_spec on concrete ok, ok-but-empty and
non-ok responses, starting from a one-element list. -/
theorem loadDocuments_spec_witness :
    loadDocuments [] (.response ⟨true,
        some ⟨some ⟨some [⟨7, some "a.pdf", none, some "procesado", none, none, none, none⟩]⟩⟩⟩) =
      ([⟨7, some "a.pdf", none, some "procesado", none, none, none, none⟩], none) ∧
    loadDocuments [⟨7, some "a.pdf", none, some "procesado", none, none, none, none⟩]
        (.response ⟨true, some ⟨none⟩⟩) = ([], none) ∧
    loadDocuments [⟨7, some "a.pdf", none, some "procesado", none, none, none, none⟩]
        (.response ⟨false, none⟩) =
      ([⟨7, some "a.pdf", none, some "procesado", none, none, none, none⟩],
        some "Error al cargar documentos") :=
  ⟨loadDocuments_spec.1 [] _ _ _ rfl rfl rfl,
   loadDocuments_spec.2.1 _ _ _ rfl rfl rfl,
   loadDocuments_spec.2.2 _ _ rfl⟩

/-- A chat bubble: its text and its sender class (user or assistant). -/
structure ChatMsg where
  text : String
  sender : String
deriving DecidableEq, Repr

/-- The mutable pieces of ChatHandler plus the chat DOM it drives:
currentDocumentId, the input value, the disabled flags of input and send
button, the message list, and the alerts raised via window.alert. -/
structure ChatUiState where
  currentDocumentId : Option Nat
  inputValue : String
  inputDisabled : Bool
  sendDisabled : Bool
  messages : List ChatMsg
  alerts : List String
deriving DecidableEq, Repr

/-- The chat state together with the document state owned by PdfHandler
(documents list and selected document), so that frame conditions can be
stated. -/
structure AppState where
  chat : ChatUiState
  documents : List Doc
  selectedDocument : Option Doc
deriving DecidableEq, Repr

/-- JavaScript truthiness of the currentDocumentId slot: null (none) and
the id 0 are falsy, as tested by !this.currentDocumentId. -/
def jsTruthyId : Option Nat → Bool
  | none => false
  | some n => n != 0

/-- JavaScript truthiness of an optional string field: undefined and ""
are falsy. -/
def jsTruthyStr : Option String → Bool
  | none => false
  | some s => !s.isEmpty

/-- The POST a chat exchange issues: URL and the JSON body fields message
and document_id. -/
structure ChatRequest where
  url : String
  message : String
  document_id : Nat
deriving DecidableEq, Repr

/-- The parsed JSON body of a /chat/message response. -/
structure ChatRespBody where
  response : Option String
  error : Option String
deriving DecidableEq, Repr

/-- The ways the fetch of /chat/message can come back. -/
inductive ChatFetch where
  | networkFailure
  | response (ok : Bool) (body : ChatRespBody)
deriving DecidableEq, Repr

/-- The error text of the else branch of sendMessage:
data.error || a fixed fallback, prefixed by "Error: ". -/
def chatErrorText (body : ChatRespBody) : String :=
  "Error: " ++ (if jsTruthyStr body.error then body.error.getD ""
                else "No se pudo procesar la pregunta")

/-- The assistant bubble sendMessage appends once the fetch settles: the
generated answer when the response is ok with a truthy response field,
the error text on a non-ok or answerless response, and the fixed
connection-error text when the fetch rejects. -/
def assistantReply (f : ChatFetch) : ChatMsg :=
  match f with
  | .networkFailure => ⟨"Error de conexión", "assistant"⟩
  | .response ok body =>
    if ok && jsTruthyStr body.response then ⟨body.response.getD "", "assistant"⟩
    else ⟨chatErrorText body, "assistant"⟩

/-- Embedding of ChatHandler.sendMessage (src/static/js/chatHandler.js,
lines 77-122), returning the state after the whole exchange settles and
the request issued if any.  An empty trimmed message or a falsy
currentDocumentId only alerts; otherwise the trimmed message is shown as
the user bubble, the input is cleared, the body message plus document_id
is posted, the reply bubble is appended, and the finally block re-enables
input and button (the transient loading state is not observable in the
settled state). -/
def sendMessage (st : AppState) (f : ChatFetch) : AppState × Option ChatRequest :=
  let message := jsTrim st.chat.inputValue
  if message.isEmpty then
    ({ st with chat := { st.chat with
        alerts := st.chat.alerts ++ ["Escribe una pregunta"] } }, none)
  else if !jsTruthyId st.chat.currentDocumentId then
    ({ st with chat := { st.chat with
        alerts := st.chat.alerts ++ ["Selecciona un documento primero"] } }, none)
  else
    ({ st with chat := { st.chat with
        messages := st.chat.messages ++ [⟨message, "user"⟩, assistantReply f],
        inputValue := "",
        inputDisabled := false,
        sendDisabled := false } },
     some ⟨"/chat/message", message, st.chat.currentDocumentId.getD 0⟩)

/-- Embedding of ChatHandler.enableChat (lines 30-51): stores the id,
enables input and button and clears the messages; placeholder and status
texts are not modelled. -/
def enableChat (st : AppState) (documentId : Nat) : AppState :=
  { st with chat := { st.chat with
      currentDocumentId := some documentId,
      inputDisabled := false,
      sendDisabled := false,
      messages := [] } }

/-- Embedding of ChatHandler.disableChat (lines 53-76): clears the id and
the input, disables input and button and clears the messages. -/
def disableChat (st : AppState) : AppState :=
  { st with chat := { st.chat with
      currentDocumentId := none,
      inputValue := "",
      inputDisabled := true,
      sendDisabled := true,
      messages := [] } }

/-- The calls that rebind the chat to a document between two sends. -/
inductive ChatEvent where
  | enable (id : Nat)
  | disable
deriving DecidableEq, Repr

/-- One enableChat or disableChat call applied to the state. -/
def applyChatEvent (st : AppState) : ChatEvent → AppState
  | .enable id => enableChat st id
  | .disable => disableChat st

/-- A sequence of enableChat / disableChat calls applied in order. -/
def runChatEvents (st : AppState) (es : List ChatEvent) : AppState :=
  es.foldl applyChatEvent st

/-- A nonempty string is not isEmpty. -/
theorem str_isEmpty_false (s : String) (h : s ≠ "") : s.isEmpty = false := by
  rw [Bool.eq_false_iff]
  intro hh
  exact h ((String.isEmpty_iff s).mp hh)

/-- The request slot of sendMessage in closed form: none under either
guard, otherwise the /chat/message body with the trimmed message and the
current id. -/
theorem sendMessage_req_eq (st : AppState) (f : ChatFetch) :
    (sendMessage st f).2 =
      (if (jsTrim st.chat.inputValue).isEmpty then none
       else if !jsTruthyId st.chat.currentDocumentId then none
       else some ⟨"/chat/message", jsTrim st.chat.inputValue,
         st.chat.currentDocumentId.getD 0⟩) := by
  by_cases h1 : (jsTrim st.chat.inputValue).isEmpty <;>
    by_cases h2 : jsTruthyId st.chat.currentDocumentId <;>
      simp [sendMessage, h1, h2]

/-- Whenever sendMessage issues a request, its document_id is exactly the
stored currentDocumentId. -/
theorem sendMessage_doc_id (st : AppState) (f : ChatFetch) (req : ChatRequest)
    (hr : (sendMessage st f).2 = some req) :
    st.chat.currentDocumentId = some req.document_id := by
  rw [sendMessage_req_eq] at hr
  split at hr
  · cases hr
  · split at hr
    · cases hr
    · cases hr
      cases hcur : st.chat.currentDocumentId with
      | none =>
        rename_i hg
        rw [hcur] at hg
        simp [jsTruthyId] at hg
      | some n => simp [hcur]

/-- After a nonempty run of enableChat / disableChat calls that contains
no enableChat, the stored id is cleared. -/
theorem currentId_noEnable (es : List ChatEvent) (st : AppState)
    (hne : es ≠ []) (h : ∀ i, ChatEvent.enable i ∉ es) :
    (runChatEvents st es).chat.currentDocumentId = none := by
  induction es generalizing st with
  | nil => exact absurd rfl hne
  | cons e rest ih =>
    have he : e = ChatEvent.disable := by
      cases e with
      | enable i => exact absurd (List.mem_cons_self _ _) (h i)
      | disable => rfl
    subst he
    cases hrest : rest with
    | nil => simp [runChatEvents, applyChatEvent, disableChat]
    | cons r rs =>
      rw [← hrest]
      have hstep : runChatEvents st (ChatEvent.disable :: rest) =
          runChatEvents (disableChat st) rest := rfl
      rw [hstep]
      apply ih
      · rw [hrest]
        simp
      · intro i hi
        exact h i (List.mem_cons_of_mem _ hi)

/-- A request issued after an enableChat id call followed only by
non-enableChat events carries exactly that id. -/
theorem lastEnable_currentId (st : AppState) (es1 : List ChatEvent) (id : Nat)
    (es2 : List ChatEvent) (h : ∀ i, ChatEvent.enable i ∉ es2) (f : ChatFetch)
    (req : ChatRequest)
    (hr : (sendMessage (runChatEvents st (es1 ++ ChatEvent.enable id :: es2)) f).2
      = some req) :
    req.document_id = id := by
  have hsplit : runChatEvents st (es1 ++ ChatEvent.enable id :: es2) =
      runChatEvents (enableChat (runChatEvents st es1) id) es2 := by
    simp [runChatEvents, List.foldl_append, List.foldl_cons, applyChatEvent]
  rw [hsplit] at hr
  have hdoc := sendMessage_doc_id _ _ _ hr
  by_cases hes2 : es2 = []
  · subst hes2
    simp [runChatEvents, enableChat] at hdoc
    exact hdoc.symm
  · have hid := currentId_noEnable es2 (enableChat (runChatEvents st es1) id) hes2 h
    rw [hid] at hdoc
    cases hdoc

/-- Claim C6: no request leaves when the trimmed message is empty or no
document id is set; every request that leaves goes to /chat/message with
body exactly the trimmed message plus the stored document id; and after
an enableChat id with no later enableChat, a request that leaves carries
exactly that id. -/
theorem sendMessage_body_spec :
    (∀ st f, jsTrim st.chat.inputValue = "" ∨ st.chat.currentDocumentId = none →
      (sendMessage st f).2 = none) ∧
    (∀ st f req, (sendMessage st f).2 = some req →
      req.url = "/chat/message" ∧ req.message = jsTrim st.chat.inputValue ∧
        st.chat.currentDocumentId = some req.document_id) ∧
    (∀ st es1 id es2 f req, (∀ i, ChatEvent.enable i ∉ es2) →
      (sendMessage (runChatEvents st (es1 ++ ChatEvent.enable id :: es2)) f).2
        = some req →
      req.document_id = id) := by
  refine ⟨?_, ?_, ?_⟩
  · intro st f h
    rw [sendMessage_req_eq]
    rcases h with h | h
    · rw [h]
      rfl
    · rw [h]
      simp [jsTruthyId]
  · intro st f req h
    have hdoc := sendMessage_doc_id st f req h
    rw [sendMessage_req_eq] at h
    split at h
    · cases h
    · split at h
      · cases h
      · cases h
        exact ⟨rfl, rfl, hdoc⟩
  · intro st es1 id es2 f req h hr
    exact lastEnable_currentId st es1 id es2 h f req hr

/-- Witness for sendMessage_body_spec: with no id set nothing is posted,
and after enableChat 3 a send of " hola " posts document id 3. -/
theorem sendMessage_body_spec_witness :
    (sendMessage ⟨⟨none, "hola", false, false, [], []⟩, [], none⟩
        ChatFetch.networkFailure).2 = none ∧
      (⟨"/chat/message", "hola", 3⟩ : ChatRequest).document_id = 3 :=
  ⟨sendMessage_body_spec.1 ⟨⟨none, "hola", false, false, [], []⟩, [], none⟩
      ChatFetch.networkFailure (Or.inr rfl),
   sendMessage_body_spec.2.2 ⟨⟨none, " hola ", false, false, [], []⟩, [], none⟩
      [] 3 [] ChatFetch.networkFailure ⟨"/chat/message", "hola", 3⟩
      (by intro i hi; cases hi) (by decide)⟩

/-- The predicate of claim C7 on the settled fetch: the backend was
unreachable, the response was not ok, or it lacked a truthy response
field. -/
def chatFetchFailed : ChatFetch → Bool
  | .networkFailure => true
  | .response ok body => !ok || !jsTruthyStr body.response

/-- Claim C7: a chat exchange that ends in an error leaves the document
list, the selected document and the stored document id unchanged,
re-enables the input controls, and appends exactly the user bubble plus
one assistant error bubble for that question. -/
theorem sendMessage_error_frame :
    ∀ st f, chatFetchFailed f = true →
      jsTrim st.chat.inputValue ≠ "" →
      jsTruthyId st.chat.currentDocumentId = true →
      ((sendMessage st f).1.documents = st.documents ∧
       (sendMessage st f).1.selectedDocument = st.selectedDocument ∧
       (sendMessage st f).1.chat.currentDocumentId = st.chat.currentDocumentId ∧
       (sendMessage st f).1.chat.inputDisabled = false ∧
       (sendMessage st f).1.chat.sendDisabled = false ∧
       ∃ e, (sendMessage st f).1.chat.messages =
           st.chat.messages ++ [⟨jsTrim st.chat.inputValue, "user"⟩, ⟨e, "assistant"⟩] ∧
         (e = "Error de conexión" ∨ ∃ body, e = chatErrorText body)) := by
  intro st f hf hne htr
  have hie : (jsTrim st.chat.inputValue).isEmpty = false := str_isEmpty_false _ hne
  have hrep : assistantReply f = ⟨(assistantReply f).text, "assistant"⟩ := by
    cases f with
    | networkFailure => rfl
    | response ok body =>
      simp only [assistantReply]
      split <;> rfl
  have hst : (sendMessage st f).1 =
      { st with chat := { st.chat with
          messages := st.chat.messages ++
            [⟨jsTrim st.chat.inputValue, "user"⟩, assistantReply f],
          inputValue := "",
          inputDisabled := false,
          sendDisabled := false } } := by
    simp [sendMessage, hie, htr]
  rw [hst]
  refine ⟨rfl, rfl, rfl, rfl, rfl, (assistantReply f).text, ?_, ?_⟩
  · rw [← hrep]
  · cases f with
    | networkFailure =>
      left
      rfl
    | response ok body =>
      right
      refine ⟨body, ?_⟩
      simp only [assistantReply]
      split
      · rename_i hcond
        simp [chatFetchFailed] at hf
        rw [Bool.and_eq_true] at hcond
        rcases hf with hf | hf
        · rw [hcond.1] at hf
          cases hf
        · rw [hcond.2] at hf
          cases hf
      · rfl

/-- Witness for sendMessage_error_frame: a non-ok response over a
one-document list changes neither the list nor the stored id. -/
theorem sendMessage_error_frame_witness :
    (sendMessage ⟨⟨some 3, " hola ", false, false, [], []⟩,
        [⟨7, some "a.pdf", none, some "procesado", none, none, none, none⟩], none⟩
      (ChatFetch.response false ⟨none, some "boom"⟩)).1.documents =
        [⟨7, some "a.pdf", none, some "procesado", none, none, none, none⟩] ∧
    (sendMessage ⟨⟨some 3, " hola ", false, false, [], []⟩,
        [⟨7, some "a.pdf", none, some "procesado", none, none, none, none⟩], none⟩
      (ChatFetch.response false ⟨none, some "boom"⟩)).1.chat.currentDocumentId = some 3 :=
  ⟨(sendMessage_error_frame ⟨⟨some 3, " hola ", false, false, [], []⟩,
      [⟨7, some "a.pdf", none, some "procesado", none, none, none, none⟩], none⟩
      (ChatFetch.response false ⟨none, some "boom"⟩) (by decide) (by decide) (by decide)).1,
   (sendMessage_error_frame ⟨⟨some 3, " hola ", false, false, [], []⟩,
      [⟨7, some "a.pdf", none, some "procesado", none, none, none, none⟩], none⟩
      (ChatFetch.response false ⟨none, some "boom"⟩) (by decide) (by decide) (by decide)).2.2.1⟩

/-- A primitive JSON value of a processing_info object: a number (times
modelled as naturals) or a string. -/
inductive JsPrim where
  | num (n : Nat)
  | str (s : String)
deriving DecidableEq, Repr

/-- Property read on a plain JSON object modelled as a key-value list. -/
def jsGetField (o : List (String × JsPrim)) (k : String) : Option JsPrim :=
  (o.find? (fun p => p.1 == k)).map (fun p => p.2)

/-- JavaScript truthiness of a primitive: 0 and "" are falsy. -/
def jsPrimTruthy : JsPrim → Bool
  | .num n => n != 0
  | .str s => !s.isEmpty

/-- Template-string coercion of a primitive. -/
def primText : JsPrim → String
  | .num n => toString n
  | .str s => s

/-- Number.prototype.toFixed(2) on a natural. -/
def jsToFixed2 (n : Nat) : String := toString n ++ ".00"

/-- The processing rows of the details modal: the value handed to
formatDate for the processing date (its locale rendering is outside the
model), and the rendered duration and version cells. -/
structure ProcSection where
  processedAtArg : Option JsPrim
  duracion : String
  versionText : String
deriving DecidableEq, Repr

/-- Embedding of the processing_info section of
DocumentDetails.generateDetailContent (src/unnamed/part_001,
lines 302-318): the date row passes processingInfo.processed_at to
formatDate, the duration row renders
processingInfo.processing_time?.toFixed(2) || "N/A" followed by
" segundos", and the version row renders processingInfo.version || "N/A".
A non-numeric processing_time would raise a TypeError in the source; the
model maps it to the distinguished cell text "TypeError", unreached
below. -/
def renderProcessingSection (o : List (String × JsPrim)) : ProcSection :=
  { processedAtArg := jsGetField o "processed_at",
    duracion :=
      (match jsGetField o "processing_time" with
       | some (.num n) => jsToFixed2 n
       | some (.str _) => "TypeError"
       | none => "N/A") ++ " segundos",
    versionText :=
      match jsGetField o "version" with
      | some v => if jsPrimTruthy v then primText v else "N/A"
      | none => "N/A" }

/-- A processing_info record keyed by the field names the claim and the
spec give it. -/
def specNamedProcInfo : List (String × JsPrim) :=
  [("processed_at", .str "2024-05-01T10:00:00"),
   ("processing_time_seconds", .num 5),
   ("pipeline_version", .str "1.0")]

/-- Claim C4, counterexample: the consumer does not read the field names
processing_time_seconds and pipeline_version.  On a record carrying
exactly the claimed names with values present, the duration and version
cells render the fallback "N/A". -/
theorem processingInfo_fieldNames_counterexample :
    jsGetField specNamedProcInfo "processing_time_seconds" = some (.num 5) ∧
    jsGetField specNamedProcInfo "pipeline_version" = some (.str "1.0") ∧
    (renderProcessingSection specNamedProcInfo).duracion = "N/A segundos" ∧
    (renderProcessingSection specNamedProcInfo).versionText = "N/A" := by
  decide

/-- Claim C4 (amended): the field names the consumer of the document
record reads from processing_info are processed_at (processing date),
processing_time (duration) and version (processor version): the rendered
section depends on exactly those three fields, a present numeric
processing_time renders as its two-decimal seconds, and a present
non-empty version string renders verbatim. -/
theorem renderProcessingSection_spec :
    (∀ o1 o2, jsGetField o1 "processed_at" = jsGetField o2 "processed_at" →
      jsGetField o1 "processing_time" = jsGetField o2 "processing_time" →
      jsGetField o1 "version" = jsGetField o2 "version" →
      renderProcessingSection o1 = renderProcessingSection o2) ∧
    (∀ o n, jsGetField o "processing_time" = some (.num n) →
      (renderProcessingSection o).duracion = jsToFixed2 n ++ " segundos") ∧
    (∀ o s, jsGetField o "version" = some (.str s) → s ≠ "" →
      (renderProcessingSection o).versionText = s) ∧
    (∀ o, (renderProcessingSection o).processedAtArg = jsGetField o "processed_at") := by
  refine ⟨?_, ?_, ?_, fun o => rfl⟩
  · intro o1 o2 h1 h2 h3
    simp only [renderProcessingSection, h1, h2, h3]
  · intro o n h
    simp [renderProcessingSection, h]
  · intro o s h hs
    simp [renderProcessingSection, h, jsPrimTruthy, primText, str_isEmpty_false s hs]

/-- Witness for renderProcessingSection_spec on a record keyed by the
names the consumer actually reads. -/
theorem renderProcessingSection_spec_witness :
    (renderProcessingSection [("processing_time", .num 7), ("version", .str "2.1")]).duracion
        = jsToFixed2 7 ++ " segundos" ∧
      (renderProcessingSection [("processing_time", .num 7), ("version", .str "2.1")]).versionText
        = "2.1" :=
  ⟨renderProcessingSection_spec.2.1 [("processing_time", .num 7), ("version", .str "2.1")]
      7 rfl,
   renderProcessingSection_spec.2.2.1 [("processing_time", .num 7), ("version", .str "2.1")]
      "2.1" rfl (by decide)⟩

/-- Modelled from the spec: the document status values of the Ingestion
Coordinator state machine (spec section 4.4); the backend that owns them
is not among the shipped sources. -/
inductive PStatus where
  | pending
  | processing
  | processed
  | error
deriving DecidableEq, Repr

/-- Modelled from the spec: the content_info summary written when
extraction succeeds (spec section 3). -/
structure SpecContentInfo where
  total_pages : Nat
  total_chars : Nat
  has_images : Bool
  has_text : Bool
  images_with_text : Nat
deriving DecidableEq, Repr

/-- Modelled from the spec: the processing_info audit record (spec
section 3, under the names the spec gives it). -/
structure SpecProcessingInfo where
  processed_at : String
  processing_time_seconds : Nat
  pipeline_version : String
deriving DecidableEq, Repr

/-- Modelled from the spec: a backend document record — status, the
optional extraction summary, the optional structured content (a JSON
string, empty meaning empty content), and the optional audit record. -/
structure SpecDocument where
  status : PStatus
  content_info : Option SpecContentInfo
  content_json : Option String
  processing_info : Option SpecProcessingInfo
deriving DecidableEq, Repr

/-- Modelled from the spec: a freshly uploaded document (spec section 3
lifecycle): status pending, no derived content yet. -/
def newDocument : SpecDocument := ⟨.pending, none, none, none⟩

/-- Modelled from the spec: the transitions of the Ingestion Coordinator
(spec section 4.4).  A pending document is claimed into processing; a
processing run finishing without fatal error writes content_info,
content_json and processing_info together with status processed; a fatal
error lands the document in status error with the audit record written,
content_json possibly holding partial diagnostics, and content_info left
as it was. -/
inductive PipelineStep : SpecDocument → SpecDocument → Prop where
  | claim (d : SpecDocument) : d.status = PStatus.pending →
      PipelineStep d ⟨PStatus.processing, d.content_info, d.content_json, d.processing_info⟩
  | finishOk (d : SpecDocument) (ci : SpecContentInfo) (cj : String)
      (pinfo : SpecProcessingInfo) : d.status = PStatus.processing → cj ≠ "" →
      PipelineStep d ⟨PStatus.processed, some ci, some cj, some pinfo⟩
  | finishErr (d : SpecDocument) (cj : Option String) (pinfo : SpecProcessingInfo) :
      d.status = PStatus.processing →
      PipelineStep d ⟨PStatus.error, d.content_info, cj, some pinfo⟩

/-- The documents a run of the modelled pipeline can produce, starting
from a fresh upload. -/
inductive ReachableDoc : SpecDocument → Prop where
  | init : ReachableDoc newDocument
  | step {d d2 : SpecDocument} : ReachableDoc d → PipelineStep d d2 → ReachableDoc d2

/-- The inductive strengthening: a processed document carries both
content fields non-empty, and a document in any other status carries no
content_info. -/
def processedInv (d : SpecDocument) : Prop :=
  (d.status = .processed →
    d.content_info.isSome = true ∧ ∃ s, d.content_json = some s ∧ s ≠ "") ∧
  (d.status ≠ .processed → d.content_info = none)

/-- Every reachable document satisfies the strengthened invariant. -/
theorem reachable_processedInv (d : SpecDocument) (h : ReachableDoc d) :
    processedInv d := by
  induction h with
  | init =>
    refine ⟨?_, fun _ => rfl⟩
    intro hc
    cases hc
  | step hre hstep ih =>
    cases hstep with
    | claim hp =>
      refine ⟨?_, ?_⟩
      · intro hc
        cases hc
      · intro _
        exact ih.2 (by rw [hp]; intro hc; cases hc)
    | finishOk ci cj pinfo hp hcj =>
      refine ⟨?_, ?_⟩
      · intro _
        exact ⟨rfl, cj, rfl, hcj⟩
      · intro hc
        exact absurd rfl hc
    | finishErr cj pinfo hp =>
      refine ⟨?_, ?_⟩
      · intro hc
        cases hc
      · intro _
        exact ih.2 (by rw [hp]; intro hc; cases hc)

/-- Claim C2: for every document the modelled pipeline can produce,
status is processed exactly when content_info and the content JSON are
both present and non-empty. -/
theorem processed_iff_content (d : SpecDocument) (h : ReachableDoc d) :
    d.status = PStatus.processed ↔
      (d.content_info.isSome = true ∧ ∃ s, d.content_json = some s ∧ s ≠ "") := by
  have hi := reachable_processedInv d h
  constructor
  · exact hi.1
  · intro hc
    by_contra hne
    rw [hi.2 hne] at hc
    simp at hc

/-- Witness for processed_iff_content: a concrete document taken through
claim and successful finish is processed and carries both fields. -/
theorem processed_iff_content_witness :
    (⟨PStatus.processed, some ⟨3, 9, true, true, 1⟩, some "contenido",
        some ⟨"2024-05-01", 2, "v1"⟩⟩ : SpecDocument).status = PStatus.processed ↔
      ((⟨PStatus.processed, some ⟨3, 9, true, true, 1⟩, some "contenido",
          some ⟨"2024-05-01", 2, "v1"⟩⟩ : SpecDocument).content_info.isSome = true ∧
        ∃ s, (⟨PStatus.processed, some ⟨3, 9, true, true, 1⟩, some "contenido",
          some ⟨"2024-05-01", 2, "v1"⟩⟩ : SpecDocument).content_json = some s ∧ s ≠ "") :=
  processed_iff_content _
    (ReachableDoc.step
      (ReachableDoc.step ReachableDoc.init (PipelineStep.claim newDocument rfl))
      (PipelineStep.finishOk ⟨PStatus.processing, none, none, none⟩
        ⟨3, 9, true, true, 1⟩ "contenido" ⟨"2024-05-01", 2, "v1"⟩ rfl (by decide)))

/-- Modelled from the spec: the error kinds of the Chat Query Engine
(spec sections 4.6 and 7). -/
inductive ChatFailure where
  | DocumentNotReady
  | GenerationUnavailable
deriving DecidableEq, Repr

/-- Modelled from the spec: the generation backend the Chat Query Engine
calls — whether it can be reached, and the answer it produces from the
question and the retrieved content. -/
structure GenBackend where
  reachable : Bool
  respond : String → String → String

/-- Modelled from the spec: the Chat Query Engine answer(document_id,
question) (spec section 4.6), which is not among the shipped sources.
The named document is looked up in the store; unless its status is
processed the call fails with DocumentNotReady; an unreachable backend
fails with GenerationUnavailable; otherwise the answer is generated from
the question and that document content_json only. -/
def chatAnswer (store : List (Nat × SpecDocument)) (documentId : Nat)
    (question : String) (gen : GenBackend) : Except ChatFailure String :=
  match (store.find? (fun p => p.1 == documentId)).map (fun p => p.2) with
  | none => .error .DocumentNotReady
  | some d =>
    if d.status = PStatus.processed then
      if gen.reachable then .ok (gen.respond question (d.content_json.getD ""))
      else .error .GenerationUnavailable
    else .error .DocumentNotReady

/-- Claim C1: a chat question against a document whose status is not
processed is rejected with DocumentNotReady and no generated answer is
returned. -/
theorem chat_requires_processed :
    ∀ store id q gen d,
      (store.find? (fun p => p.1 == id)).map (fun p => p.2) = some d →
      d.status ≠ PStatus.processed →
      (chatAnswer store id q gen = Except.error ChatFailure.DocumentNotReady ∧
        ∀ a, chatAnswer store id q gen ≠ Except.ok a) := by
  intro store id q gen d hfind hst
  have heq : chatAnswer store id q gen = Except.error ChatFailure.DocumentNotReady := by
    simp only [chatAnswer, hfind]
    rw [if_neg hst]
  exact ⟨heq, by intro a ha; rw [heq] at ha; cases ha⟩

/-- Witness for chat_requires_processed: a question against a freshly
uploaded (pending) document is rejected. -/
theorem chat_requires_processed_witness :
    chatAnswer [(1, newDocument)] 1 "hola" ⟨true, fun _ c => c⟩ =
      Except.error ChatFailure.DocumentNotReady :=
  (chat_requires_processed [(1, newDocument)] 1 "hola" ⟨true, fun _ c => c⟩
    newDocument rfl (by decide)).1
